import Mathlib

/-!
Shallow embedding of the job-execution engine of `src/server.js`
(docker-java-executor).  Pure fragments of the JavaScript are translated
into Lean functions; database rows become a record type; callback handlers
become state-transformer functions; JavaScript number semantics relevant to
the stats sampler (division by zero giving infinities, NaN comparisons)
become an explicit `JSNum` type.  Line references are to `src/server.js`.
-/

namespace JavaExecutor

/-- Job status strings stored in the `jobs` table (`'not_started'`,
`'running'`, `'done'`, see the schema at lines 35-58). -/
inductive Status
  | not_started
  | running
  | done
deriving DecidableEq, Repr

/-- One element of the `inputFiles` array of a submission: an object with
`name` and `content` fields. -/
structure InputFile where
  name : String
  content : String
deriving DecidableEq, Repr

/-- Fragment of JavaScript number semantics needed by the stats handler:
finite values are exact rationals, plus the IEEE special values produced by
division by zero. -/
inductive JSNum
  | num (q : ℚ)
  | posInf
  | negInf
  | nan
deriving DecidableEq, Repr

/-- JavaScript division of two finite numbers: `a / 0` is `Infinity`,
`-Infinity` or `NaN` depending on the sign of `a`; otherwise exact. -/
def jsDiv (a b : ℚ) : JSNum :=
  if b = 0 then
    (if 0 < a then JSNum.posInf else if a < 0 then JSNum.negInf else JSNum.nan)
  else JSNum.num (a / b)

/-- JavaScript multiplication of a possibly non-finite number by a finite
number: `Infinity * c` keeps or flips the sign for `c ≠ 0` and is `NaN` for
`c = 0`; `NaN` is absorbing. -/
def jsMulFin : JSNum → ℚ → JSNum
  | JSNum.num a, c => JSNum.num (a * c)
  | JSNum.posInf, c =>
      if 0 < c then JSNum.posInf else if c < 0 then JSNum.negInf else JSNum.nan
  | JSNum.negInf, c =>
      if 0 < c then JSNum.negInf else if c < 0 then JSNum.posInf else JSNum.nan
  | JSNum.nan, _ => JSNum.nan

/-- JavaScript `>` comparison: any comparison involving `NaN` is false;
`Infinity` is greater than every finite value and `-Infinity`. -/
def jsGt : JSNum → JSNum → Bool
  | JSNum.num a, JSNum.num b => decide (b < a)
  | JSNum.posInf, JSNum.num _ => true
  | JSNum.posInf, JSNum.negInf => true
  | JSNum.num _, JSNum.negInf => true
  | JSNum.negInf, _ => false
  | _, JSNum.posInf => false
  | JSNum.nan, _ => false
  | _, JSNum.nan => false

/-- A row of the `jobs` table (schema at lines 35-58).  Output buffers are
kept as lists of code units so that `substring`/truncation is `List.take`;
nullable columns are `Option`; booleans default to `0` at insertion. -/
structure JobRec where
  api_key : String
  java_code : String
  args : List String
  input_files : List InputFile
  status : Status
  stdout : Option (List ℕ)
  stderr : Option (List ℕ)
  crashed : Bool
  timed_out : Bool
  memory_usage_mb : Option JSNum
  cpu_percent_max : Option JSNum
  execution_time_ms : Option ℕ
  started_at : Option ℕ
  completed_at : Option ℕ
  container_id : Option String
deriving DecidableEq, Repr

/-- The row inserted by `POST /api/submit` (lines 370-379): status
`'not_started'`, code/args/input files stored verbatim, every other column
left at its schema default. -/
def insertedJob (apiKey javaCode : String) (args : List String)
    (files : List InputFile) : JobRec :=
  { api_key := apiKey
    java_code := javaCode
    args := args
    input_files := files
    status := Status.not_started
    stdout := none
    stderr := none
    crashed := false
    timed_out := false
    memory_usage_mb := none
    cpu_percent_max := none
    execution_time_ms := none
    started_at := none
    completed_at := none
    container_id := none }

/-- Result of the submit route: either an HTTP error response or a created
job row. -/
inductive SubmitOutcome
  | rejected (httpStatus : ℕ)
  | created (job : JobRec)
deriving DecidableEq, Repr

/-- The `POST /api/submit` handler (lines 359-400) after authentication:
the only validation performed is the falsiness check `if (!javaCode)`
(line 363), which rejects a missing/empty source with HTTP 400; otherwise
the job row is inserted exactly as submitted.  No inspection of
`inputFiles` names takes place. -/
def submitHandler (apiKey javaCode : String) (args : List String)
    (files : List InputFile) : SubmitOutcome :=
  if javaCode = "" then SubmitOutcome.rejected 400
  else SubmitOutcome.created (insertedJob apiKey javaCode args files)

/-- `createTarArchive` (lines 118-141): one entry `Main.java` holding the
source, then one entry per input file whose `name` and `content` are both
truthy, under the file's name verbatim. -/
def createTarArchive (javaCode : String) (inputFiles : List InputFile) :
    List (String × String) :=
  ("Main.java", javaCode) ::
    (inputFiles.filter (fun f => decide (f.name ≠ "" ∧ f.content ≠ ""))).map
      (fun f => (f.name, f.content))

/-- The attach-stream `data` handler (lines 221-232): for each delivered
chunk it reads `header = chunk.slice(0, 8)`, `type = header[0]`,
`payload = chunk.slice(8)` and appends the payload to the buffer selected
by the tag; the 32-bit length field is never consulted.  An empty chunk has
`header[0] === undefined`, matching no tag. -/
def demuxChunk : (List ℕ × List ℕ) → List ℕ → (List ℕ × List ℕ)
  | bufs, [] => bufs
  | (out, err), t :: rest =>
      let payload := (t :: rest).drop 8
      if t = 1 then (out ++ payload, err)
      else if t = 2 then (out, err ++ payload)
      else (out, err)

/-- Feeding a sequence of `data` chunks through the handler, starting from
empty `stdout`/`stderr` buffers (lines 218-219). -/
def demux (chunks : List (List ℕ)) : List ℕ × List ℕ :=
  chunks.foldl demuxChunk ([], [])

/-- Big-endian 32-bit length, bytes 4-7 of a frame header (spec §4.3). -/
def beU32 (n : ℕ) : List ℕ :=
  [n / 2 ^ 24 % 256, n / 2 ^ 16 % 256, n / 2 ^ 8 % 256, n % 256]

/-- A well-formed frame of the runtime's multiplexed stream: tag byte,
three reserved zero bytes, big-endian payload length, then the payload
(spec §4.3, and the format named by the comment at line 222). -/
def encodeFrame (tag : ℕ) (payload : List ℕ) : List ℕ :=
  tag :: 0 :: 0 :: 0 :: beU32 payload.length ++ payload

/-- One parsed statistics frame as read by the stats handler
(lines 238-262): current and previous CPU totals, current and previous
system CPU, online CPU count, and memory usage in bytes. -/
structure StatsFrame where
  cpu_total : ℚ
  precpu_total : ℚ
  system_cpu : ℚ
  presystem_cpu : ℚ
  online_cpus : ℚ
  memory_usage : ℚ
deriving DecidableEq, Repr

/-- The stats-stream `data` handler (lines 238-262), as a transformer of
the `(maxCpuPercent, maxMemoryMb)` state.  `none` models a chunk on which
`JSON.parse` threw: the `catch` ignores it and the state is unchanged.
For a parsed frame the handler computes
`cpuPercent = (cpuDelta / systemDelta) * online_cpus * 100` with
JavaScript arithmetic and updates each peak when the strict `>` holds. -/
def handleStatsData (st : JSNum × JSNum) (d : Option StatsFrame) :
    JSNum × JSNum :=
  match d with
  | none => st
  | some s =>
      let cpuDelta := s.cpu_total - s.precpu_total
      let systemDelta := s.system_cpu - s.presystem_cpu
      let cpuPercent := jsMulFin (jsMulFin (jsDiv cpuDelta systemDelta) s.online_cpus) 100
      let maxCpu := if jsGt cpuPercent st.1 then cpuPercent else st.1
      let memoryMb := s.memory_usage / (1024 * 1024)
      let maxMem := if jsGt (JSNum.num memoryMb) st.2 then JSNum.num memoryMb else st.2
      (maxCpu, maxMem)

/-- The externally observable steps of `executeJavaInDocker`'s success
path, in source order.  `entry` is the `Date.now()` read at line 151,
before the job row is even loaded; the remaining events are the awaited
calls at lines 155 (hydrate), 167 (mark running), 180 (tar), 183 (create
container), 202 (record container id), 211 (upload), 214 (attach),
215 (start), 235 (stats stream), 265 (arm timer), 275 (wait resolves). -/
inductive Event
  | entry
  | hydrate
  | markRunning
  | createTar
  | createSandbox
  | recordSandboxId
  | uploadArchive
  | attach
  | startSandbox
  | openStats
  | armTimer
  | waitDone
deriving DecidableEq, BEq, Repr

/-- The order in which `executeJavaInDocker` performs its steps on the
success path (lines 151-276). -/
def successTrace : List Event :=
  [Event.entry, Event.hydrate, Event.markRunning, Event.createTar,
   Event.createSandbox, Event.recordSandboxId, Event.uploadArchive,
   Event.attach, Event.startSandbox, Event.openStats, Event.armTimer,
   Event.waitDone]

/-- `executionTime = Date.now() - startTime` (line 276), where `startTime`
was sampled at function entry (line 151): the measured duration runs from
`entry` to `waitDone`, for any assignment of wall-clock instants to the
events. -/
def executionMs (t : Event → ℕ) : ℕ :=
  t Event.waitDone - t Event.entry

/-- Hydration plus mark-running (lines 154-173): the row is loaded; a
missing row throws `'Job not found'`; any existing row — its current
status is never examined — is updated to status `'running'` with
`started_at` set. -/
def hydrateAndMark (row : Option JobRec) (now : ℕ) : Except String JobRec :=
  match row with
  | none => Except.error "Job not found"
  | some j =>
      Except.ok { j with status := Status.running, started_at := some now }

/-- `crashed = result.StatusCode !== 0 && !timedOut` (line 283). -/
def classifyCrashed (statusCode : ℤ) (timedOut : Bool) : Bool :=
  decide (statusCode ≠ 0) && !timedOut

/-- The output cap applied by `substring(0, 10000)` (lines 300-301). -/
def outputCapBytes : ℕ := 10000

/-- The success-path finalize, the single `UPDATE` at lines 286-311: one
write sets status `'done'`, both truncated buffers, both booleans, both
peaks, the execution time and `completed_at`; its `WHERE` clause is
`id = ?` alone, with no guard on the current status. -/
def finalizeSuccess (j : JobRec) (out err : List ℕ) (crashedB timedOutB : Bool)
    (maxMem maxCpu : JSNum) (execMs now : ℕ) : JobRec :=
  { j with
    status := Status.done
    stdout := some (out.take outputCapBytes)
    stderr := some (err.take outputCapBytes)
    crashed := crashedB
    timed_out := timedOutB
    memory_usage_mb := some maxMem
    cpu_percent_max := some maxCpu
    execution_time_ms := some execMs
    completed_at := some now }

/-- The success path after `container.wait()` resolves: classify the crash
flag from the exit code and the timeout flag (line 283), then run the
finalize `UPDATE` (lines 286-311). -/
def finalizeAfterWait (j : JobRec) (out err : List ℕ) (statusCode : ℤ)
    (timedOutB : Bool) (maxMem maxCpu : JSNum) (execMs now : ℕ) : JobRec :=
  finalizeSuccess j out err (classifyCrashed statusCode timedOutB) timedOutB
    maxMem maxCpu execMs now

/-- The catch-branch finalize, the `UPDATE` at lines 326-337: it sets only
status `'done'`, `crashed = 1`, `stderr = error.message` (untruncated) and
`completed_at`; every other column keeps its prior value. -/
def finalizeCatch (j : JobRec) (errMsg : List ℕ) (now : ℕ) : JobRec :=
  { j with
    status := Status.done
    crashed := true
    stderr := some errMsg
    completed_at := some now }

/-! Concrete fixtures used by counterexamples and witnesses. -/

/-- A freshly inserted job row, as created by the submit route with the
default test key, a non-empty source and no arguments or input files. -/
def job0 : JobRec := insertedJob "test-api-key-123" "class Main" [] []

/-- The fixture job after reaching status `'done'`. -/
def doneJob : JobRec := { job0 with status := Status.done }

/-- What hydration-plus-mark-running produces when handed `doneJob`. -/
def regressedJob : JobRec :=
  { doneJob with status := Status.running, started_at := some 4 }

/-- The fixture job after one success-path finalize. -/
def finalizedOnce : JobRec :=
  finalizeSuccess job0 [1] [] false false (JSNum.num 0) (JSNum.num 0) 7 8

/-- A submission input-file list containing a path-traversal name. -/
def traversalFiles : List InputFile :=
  [{ name := "../etc/passwd", content := "data" }]

/-- A statistics frame whose system-CPU counter did not move between the
previous and the current reading (delta zero) while the container's own
CPU counter advanced. -/
def zeroDeltaFrame : StatsFrame :=
  { cpu_total := 2, precpu_total := 1, system_cpu := 5, presystem_cpu := 5,
    online_cpus := 4, memory_usage := 0 }

/-- A wall-clock assignment to the supervisor's events, monotone along the
success trace: entry at 0, attach at 5, wait resolving at 10. -/
def sampleTimes : Event → ℕ
  | Event.entry => 0
  | Event.hydrate => 1
  | Event.markRunning => 1
  | Event.createTar => 2
  | Event.createSandbox => 3
  | Event.recordSandboxId => 3
  | Event.uploadArchive => 4
  | Event.attach => 5
  | Event.startSandbox => 5
  | Event.openStats => 6
  | Event.armTimer => 6
  | Event.waitDone => 10

/-! Claims. -/

/-- C1: for every job whose deadline fired before the wait completed
(the `timedOut` flag is set), the success-path finalize writes
`timed_out = true` and `crashed = false`, regardless of the exit code the
wait returned. -/
theorem C1_timeout_dominates (j : JobRec) (out err : List ℕ) (statusCode : ℤ)
    (maxMem maxCpu : JSNum) (execMs now : ℕ) :
    (finalizeAfterWait j out err statusCode true maxMem maxCpu execMs now).timed_out
      = true ∧
    (finalizeAfterWait j out err statusCode true maxMem maxCpu execMs now).crashed
      = false := by
  refine ⟨rfl, ?_⟩
  simp [finalizeAfterWait, finalizeSuccess, classifyCrashed]

/-- C2 counterexample: a submission whose input files include the name
`../etc/passwd` is not rejected — the job row is created with the name
stored verbatim, and `createTarArchive` stages an entry under that exact
name. -/
theorem C2_traversal_name_accepted :
    submitHandler "test-api-key-123" "class Main" [] traversalFiles
      = SubmitOutcome.created
          (insertedJob "test-api-key-123" "class Main" [] traversalFiles) ∧
    ("../etc/passwd", "data") ∈ createTarArchive "class Main" traversalFiles := by
  refine ⟨rfl, ?_⟩
  decide

/-- C2 (amended): the submit route performs no validation of input-file
names — any submission with a non-empty source is accepted as-is, and
every input file with truthy name and content is staged in the archive
under its verbatim name, path separators and `..` included. -/
theorem C2_no_input_name_validation (key code : String) (args : List String)
    (files : List InputFile) (h : code ≠ "") :
    submitHandler key code args files
      = SubmitOutcome.created (insertedJob key code args files) ∧
    ∀ f ∈ files, f.name ≠ "" → f.content ≠ "" →
      (f.name, f.content) ∈ createTarArchive code files := by
  refine ⟨by simp [submitHandler, h], ?_⟩
  intro f hf hn hc
  unfold createTarArchive
  apply List.mem_cons_of_mem
  apply List.mem_map_of_mem
  rw [List.mem_filter]
  exact ⟨hf, by simp [hn, hc]⟩

/-- C2 witness: the amended statement instantiated at the traversal
fixture. -/
theorem C2_no_input_name_validation_witness :
    submitHandler "k" "class Main" [] traversalFiles
      = SubmitOutcome.created (insertedJob "k" "class Main" [] traversalFiles) ∧
    ∀ f ∈ traversalFiles, f.name ≠ "" → f.content ≠ "" →
      (f.name, f.content) ∈ createTarArchive "class Main" traversalFiles :=
  C2_no_input_name_validation "k" "class Main" [] traversalFiles (by decide)

/-- C3: the demultiplexer does not reconstruct the buffers under arbitrary
chunking.  When one delivered chunk carries two back-to-back well-formed
frames (stdout payload `[65]`, then stderr payload `[66]`), the handler
treats everything after the first 8 bytes as stdout payload: the second
frame's header and payload leak into the stdout buffer and the stderr
buffer stays empty, instead of the byte-exact `([65], [66])`. -/
theorem C3_demux_mangles_adjacent_frames :
    demux [encodeFrame 1 [65] ++ encodeFrame 2 [66]]
      = ([65, 2, 0, 0, 0, 0, 0, 0, 1, 66], []) ∧
    demux [encodeFrame 1 [65] ++ encodeFrame 2 [66]] ≠ ([65], [66]) := by
  decide

/-- C4 counterexample: the catch-branch finalize stores the error text in
`stderr` without truncation, so a finalized job can carry a `stderr`
longer than `output_cap_bytes`. -/
theorem C4_catch_stderr_exceeds_cap :
    outputCapBytes <
      ((finalizeCatch job0 (List.replicate (outputCapBytes + 1) 101) 3).stderr.getD
          []).length := by
  have h : (finalizeCatch job0 (List.replicate (outputCapBytes + 1) 101) 3).stderr
      = some (List.replicate (outputCapBytes + 1) 101) := rfl
  rw [h, Option.getD_some, List.length_replicate]
  omega

/-- C4 (amended): on the success-path finalize, the stored `stdout` and
`stderr` are each truncated to at most `output_cap_bytes`; the failure
branch, by contrast, writes the raw error text (see the counterexample). -/
theorem C4_success_buffers_capped (j : JobRec) (out err : List ℕ)
    (crashedB timedOutB : Bool) (maxMem maxCpu : JSNum) (execMs now : ℕ) :
    ((finalizeSuccess j out err crashedB timedOutB maxMem maxCpu execMs
          now).stdout.getD []).length ≤ outputCapBytes ∧
    ((finalizeSuccess j out err crashedB timedOutB maxMem maxCpu execMs
          now).stderr.getD []).length ≤ outputCapBytes := by
  constructor <;> · simp [finalizeSuccess]

/-- C5 counterexample: a second finalize on an already-finalized job is
not rejected — it succeeds and changes the record (here the stored stdout
and execution time), so the record is not immutable after the first
finalize and both attempts win. -/
theorem C5_second_finalize_overwrites :
    finalizedOnce.status = Status.done ∧
    finalizeSuccess finalizedOnce [2] [] false false (JSNum.num 0) (JSNum.num 0) 9 10
      ≠ finalizedOnce := by
  refine ⟨rfl, ?_⟩
  decide

/-- C5 (amended): finalize is a single write that sets all terminal fields
and status `'done'`, but its `WHERE` clause has no status guard: a second
finalize on the same id is not rejected with any `InvalidTransition` — it
simply overwrites every terminal field (last writer wins). -/
theorem C5_finalize_last_writer_wins (j : JobRec) (o1 e1 : List ℕ)
    (c1 t1 : Bool) (m1 mc1 : JSNum) (x1 n1 : ℕ) (o2 e2 : List ℕ)
    (c2 t2 : Bool) (m2 mc2 : JSNum) (x2 n2 : ℕ) :
    (finalizeSuccess j o1 e1 c1 t1 m1 mc1 x1 n1).status = Status.done ∧
    finalizeSuccess (finalizeSuccess j o1 e1 c1 t1 m1 mc1 x1 n1) o2 e2 c2 t2
        m2 mc2 x2 n2
      = finalizeSuccess j o2 e2 c2 t2 m2 mc2 x2 n2 :=
  ⟨rfl, rfl⟩

/-- C6 counterexample: on a frame whose system-CPU delta is zero while the
container CPU delta is positive, the sampler does not skip the sample:
JavaScript division by zero yields `Infinity`, the `>` comparison against
the finite peak succeeds, and `peak_cpu_pct` is changed (to `Infinity`)
rather than left unchanged. -/
theorem C6_zero_delta_updates_peak :
    zeroDeltaFrame.system_cpu - zeroDeltaFrame.presystem_cpu = 0 ∧
    (handleStatsData (JSNum.num 0, JSNum.num 0) (some zeroDeltaFrame)).1
      = JSNum.posInf ∧
    (handleStatsData (JSNum.num 0, JSNum.num 0) (some zeroDeltaFrame)).1
      ≠ JSNum.num 0 := by
  refine ⟨by norm_num [zeroDeltaFrame], ?_, ?_⟩ <;>
    simp [handleStatsData, zeroDeltaFrame, jsDiv, jsMulFin, jsGt]

/-- C6 (amended): a zero system-CPU delta is not guarded: with a positive
container CPU delta and a positive online-CPU count the computed quotient
is `Infinity` and the peak (previously finite) is set to `Infinity`; the
handler is a total function — a frame that fails to parse (`none`) is
skipped with the state unchanged, so the sampler neither terminates nor
propagates an error. -/
theorem C6_zero_delta_peak_infinite (st : JSNum × JSNum) (s : StatsFrame)
    (q : ℚ) (hsys : s.system_cpu = s.presystem_cpu)
    (hcpu : s.precpu_total < s.cpu_total) (hncpu : 0 < s.online_cpus)
    (hpeak : st.1 = JSNum.num q) :
    (handleStatsData st (some s)).1 = JSNum.posInf ∧
    handleStatsData st none = st := by
  have h1 : s.system_cpu - s.presystem_cpu = 0 := by rw [hsys]; ring
  have h2 : 0 < s.cpu_total - s.precpu_total := by linarith
  refine ⟨?_, rfl⟩
  simp [handleStatsData, jsDiv, jsMulFin, jsGt, h1, h2, hncpu, hpeak]

/-- C6 witness: the amended statement instantiated at the zero-delta
fixture frame with a zero initial peak. -/
theorem C6_zero_delta_peak_infinite_witness :
    (handleStatsData (JSNum.num 0, JSNum.num 0) (some zeroDeltaFrame)).1
      = JSNum.posInf ∧
    handleStatsData (JSNum.num 0, JSNum.num 0) none
      = (JSNum.num 0, JSNum.num 0) :=
  C6_zero_delta_peak_infinite (JSNum.num 0, JSNum.num 0) zeroDeltaFrame 0
    (by norm_num [zeroDeltaFrame]) (by norm_num [zeroDeltaFrame])
    (by norm_num [zeroDeltaFrame]) rfl

/-- C7 counterexample: on a monotone timeline where supervisor entry is at
instant 0, the attach (step 7) at instant 5 and wait-completion at
instant 10, the code records `execution_ms = 10` — the full span from
entry — not the 5 that the step-7-to-completion duration would give. -/
theorem C7_execution_ms_not_from_attach :
    successTrace.map sampleTimes = [0, 1, 1, 2, 3, 3, 4, 5, 5, 6, 6, 10] ∧
    executionMs sampleTimes = 10 ∧
    sampleTimes Event.waitDone - sampleTimes Event.attach = 5 ∧
    executionMs sampleTimes
      ≠ sampleTimes Event.waitDone - sampleTimes Event.attach := by
  decide

/-- C7 (amended): `execution_ms` is measured from supervisor entry — the
clock is read before hydration, staging and sandbox creation — to
wait-completion, so it equals the step-7-to-completion duration plus the
entry-to-attach overhead. -/
theorem C7_execution_ms_from_entry (t : Event → ℕ)
    (h1 : t Event.entry ≤ t Event.attach)
    (h2 : t Event.attach ≤ t Event.waitDone) :
    executionMs t
      = (t Event.waitDone - t Event.attach) + (t Event.attach - t Event.entry) := by
  unfold executionMs
  omega

/-- C7 witness: the amended statement instantiated at the sample
timeline. -/
theorem C7_execution_ms_from_entry_witness :
    executionMs sampleTimes
      = (sampleTimes Event.waitDone - sampleTimes Event.attach)
        + (sampleTimes Event.attach - sampleTimes Event.entry) :=
  C7_execution_ms_from_entry sampleTimes (by decide) (by decide)

/-- C8 counterexample: hydration does not refuse a job that is already
`'done'` — the supervisor proceeds and marks it `'running'`, moving a
terminal job backwards. -/
theorem C8_done_job_not_refused :
    doneJob.status = Status.done ∧
    hydrateAndMark (some doneJob) 4 = Except.ok regressedJob ∧
    regressedJob.status = Status.running :=
  ⟨rfl, rfl, rfl⟩

/-- C8 (amended): on hydration the supervisor refuses only a missing job
record; an existing job is marked `'running'` whatever its current status,
so driving the engine on a `'done'` job regresses it to `'running'` —
monotonicity is not enforced by the engine itself. -/
theorem C8_existing_job_marked_running (j : JobRec) (now : ℕ) :
    hydrateAndMark (some { j with status := Status.done }) now
      = Except.ok { j with status := Status.running, started_at := some now } :=
  rfl

/-- C9 counterexample: in the supervisor's actual step order the stats
stream is opened after the sandbox is started, not before, contradicting
the claimed attach → stats → start sequencing. -/
theorem C9_stats_opened_after_start :
    ¬ successTrace.indexOf Event.openStats
        < successTrace.indexOf Event.startSandbox := by
  decide

/-- C9 (amended): the supervisor's observer sequencing is attach (open
output stream), then start the sandbox, then open the stats stream — the
stats stream is opened only after `start`, so statistics frames emitted at
startup can be missed. -/
theorem C9_actual_observer_order :
    successTrace.indexOf Event.attach < successTrace.indexOf Event.startSandbox ∧
    successTrace.indexOf Event.startSandbox
      < successTrace.indexOf Event.openStats := by
  decide

/-- C10: the catch-branch finalize writes only status, `crashed`,
`stderr` and `completed_at`; `stdout`, `timed_out`, both peaks and
`execution_time_ms` keep their prior values. -/
theorem C10_catch_finalize_frame (j : JobRec) (msg : List ℕ) (now : ℕ) :
    (finalizeCatch j msg now).stdout = j.stdout ∧
    (finalizeCatch j msg now).timed_out = j.timed_out ∧
    (finalizeCatch j msg now).memory_usage_mb = j.memory_usage_mb ∧
    (finalizeCatch j msg now).cpu_percent_max = j.cpu_percent_max ∧
    (finalizeCatch j msg now).execution_time_ms = j.execution_time_ms ∧
    (finalizeCatch j msg now).status = Status.done ∧
    (finalizeCatch j msg now).crashed = true ∧
    (finalizeCatch j msg now).stderr = some msg ∧
    (finalizeCatch j msg now).completed_at = some now :=
  ⟨rfl, rfl, rfl, rfl, rfl, rfl, rfl, rfl, rfl⟩

end JavaExecutor
